import Mathlib

/-!
Verification development for the KISS-ICP visualizer module
(`python/kiss_icp/tools/visualizer.py`).

The file shallowly embeds the control/state logic of the three classes in
that module:

* `StubVisualizer`   — the headless no-op facade (`stubUpdate`);
* `Kissualizer`      — the polyscope backend: class-level state `KissState`,
  a renderer model `PsState`, the per-frame geometry pass
  `kissUpdateGeometries`, the immediate-mode GUI callback `guiCallback`,
  and the blocking visualization loop `updateVisLoop`/`updateVisualizer`;
* `RegistrationVisualizer` — the open3d backend: state `RVState`, per-frame
  geometry pass `rvUpdateGeometries`, key-callback table `rvKeyCallback`
  and its blocking loop `rvUpdateLoop`/`rvUpdate`.

Geometry is over exact rationals: points are `Vec3 := Fin 3 → ℚ` and rigid
transforms are `Mat4 := Matrix (Fin 4) (Fin 4) ℚ`; `np.linalg.inv` is
modelled by the adjugate formula `npLinalgInv`.  User interaction during a
poll of the event loop is an explicit event value (`GuiInput` for the
imgui panel, `List RVKey` for key dispatch); an update call takes the list
of events observed during its polls, and a run that exhausts its events
while still blocked is reported as `.stuck` (the real loop would keep
polling forever).  `os._exit(code)` and `exit(1)` are the `.exited` /
`.exitedWith` outcomes, which abandon the rest of the program.
-/

/-- 3D point (a row of a numpy (N,3) array). -/
abbrev Vec3 := Fin 3 → ℚ

/-- Homogeneous 4x4 rigid transform (a numpy (4,4) array). -/
abbrev Mat4 := Matrix (Fin 4) (Fin 4) ℚ

/-- `np.linalg.inv` on a 4x4 matrix, by the adjugate formula. -/
def npLinalgInv (m : Mat4) : Mat4 := m.det⁻¹ • m.adjugate

/-- `pose[:3, 3]` — the translation component of a pose. -/
def translationOf (m : Mat4) : Vec3 := fun i => m i.castSucc 3

/-- Application of a homogeneous transform to a 3D point: `R·p + t`. -/
def applyTf (m : Mat4) (v : Vec3) : Vec3 :=
  fun i => (∑ j : Fin 3, m i.castSucc j.castSucc * v j) + m i.castSucc 3

/- Module-level color constants of visualizer.py. -/

def CYAN : Vec3 := ![24/100, 898/1000, 1]
def RED : Vec3 := ![128/255, 0, 0]
def BLACK : Vec3 := ![0, 0, 0]
def BLUE : Vec3 := ![4/10, 5/10, 9/10]
def GRAY : Vec3 := ![4/10, 4/10, 4/10]
def SPHERE_SIZE : ℚ := 20/100

def BACKGROUND_COLOR : Vec3 := ![0, 0, 0]
def FRAME_COLOR : Vec3 := ![1412/10000, 4823/10000, 6274/10000]
def KEYPOINTS_COLOR : Vec3 := ![8470/10000, 667/10000, 3490/10000]
def LOCAL_MAP_COLOR : Vec3 := ![7647/10000, 6981/10000, 6000/10000]
def TRAJECTORY_COLOR : Vec3 := ![9647/10000, 9372/10000, 6509/10000]

/-- Console messages printed by the module (observable output). -/
inductive Msg where
  | polyscopeInstallHint
  | open3dInstallHint
  | destroyingVisualizer
deriving DecidableEq

/-- Result of a constructor: either the constructed object, or process
termination via `exit(code)` after printing `msg`. -/
inductive CtorRes (α : Type) where
  | ok (a : α)
  | exitedWith (code : ℕ) (msg : Msg)

/-- Result of one event-processing step: either the next state, or process
termination by `os._exit code` with the renderer state `fin` at exit. -/
inductive StepRes (σ α : Type) where
  | ok (a : α)
  | exited (code : ℕ) (fin : σ)

/-- Result of a (possibly blocking) loop or whole run: next state, process
exit, or `.stuck` — the supplied event list ran out while the loop was
still blocked, i.e. the real program would still be polling. -/
inductive RunRes (σ α : Type) where
  | ok (a : α)
  | exited (code : ℕ) (fin : σ)
  | stuck

/-- Whether a run finished normally. -/
def RunRes.isOk {σ α : Type} : RunRes σ α → Bool
  | .ok _ => true
  | _ => false

/-- The exit code of a run that terminated the process, if any. -/
def RunRes.exitCode? {σ α : Type} : RunRes σ α → Option ℕ
  | .exited c _ => some c
  | _ => none

/-! ## The polyscope renderer model (`Kissualizer` backend) -/

/-- Names of the point-cloud structures the Kissualizer registers. -/
inductive GeomName where
  | currentFrame
  | keypoints
  | localMap
  | trajectory
deriving DecidableEq

/-- `point_render_mode` of a registered polyscope point cloud. -/
inductive PsRenderMode where
  | quad
  | sphere
deriving DecidableEq

/-- A registered polyscope point cloud with its options. -/
structure PsCloud where
  points : List Vec3
  color : Vec3
  renderMode : PsRenderMode
  radius : ℚ
  transform : Mat4
  enabled : Bool

/-- The polyscope renderer state: registered clouds by name plus the
window-level settings touched by the module. -/
structure PsState where
  clouds : GeomName → Option PsCloud
  backgroundColor : Vec3
  buildGui : Bool
  shown : Bool

/-- `ps.register_point_cloud(name, pts, color=c, point_render_mode=m)`.
Re-registering an existing name replaces the data but polyscope keeps the
persistent per-structure options (radius, transform, enabled). A fresh
structure starts with polyscope's defaults. -/
def psRegisterPointCloud (ps : PsState) (name : GeomName) (pts : List Vec3)
    (c : Vec3) (mode : PsRenderMode) : PsState :=
  { ps with
    clouds := fun n =>
      if n = name then
        some (match ps.clouds name with
          | some old => { old with points := pts, color := c, renderMode := mode }
          | none =>
            { points := pts, color := c, renderMode := mode,
              radius := 1/100, transform := 1, enabled := true })
      else ps.clouds n }

/-- Modify the named cloud in place (used for `set_radius`,
`set_transform`, `set_enabled`); a missing name is left untouched. -/
def psModifyCloud (ps : PsState) (name : GeomName) (f : PsCloud → PsCloud) :
    PsState :=
  { ps with
    clouds := fun n => if n = name then (ps.clouds name).map f else ps.clouds n }

def psSetRadius (ps : PsState) (name : GeomName) (r : ℚ) : PsState :=
  psModifyCloud ps name fun c => { c with radius := r }

def psSetTransform (ps : PsState) (name : GeomName) (m : Mat4) : PsState :=
  psModifyCloud ps name fun c => { c with transform := m }

def psSetEnabled (ps : PsState) (name : GeomName) (b : Bool) : PsState :=
  psModifyCloud ps name fun c => { c with enabled := b }

def psSetBackgroundColor (ps : PsState) (c : Vec3) : PsState :=
  { ps with backgroundColor := c }

/-- `ps.unshow()` — close the window. -/
def psUnshow (ps : PsState) : PsState := { ps with shown := false }

/-- The renderer state right after `Kissualizer.__init__` /
`_initialize_visualizer` (no clouds yet, black background, built-in gui
disabled). -/
def psInitialized : PsState :=
  { clouds := fun _ => none, backgroundColor := BACKGROUND_COLOR,
    buildGui := false, shown := true }

/-! ## Kissualizer class-level state -/

/-- The static (class-level) GUI parameters of `Kissualizer`.  Every one of
these attributes is read and written as `Kissualizer.<attr>` in the source,
never through the instance, so the model keeps a single process-wide value
of this type. -/
structure KissState where
  backgroundColor : Vec3
  blockExecution : Bool
  playMode : Bool
  toggleFrame : Bool
  toggleKeypoints : Bool
  toggleMap : Bool
  globalView : Bool
  trajectory : List Vec3
  lastPose : Mat4

/-- The class-attribute initializers of `Kissualizer`. -/
def KissState.init : KissState :=
  { backgroundColor := BACKGROUND_COLOR, blockExecution := true,
    playMode := false, toggleFrame := true, toggleKeypoints := true,
    toggleMap := true, globalView := false, trajectory := [], lastPose := 1 }

/-- `Kissualizer.__init__`: importing polyscope can fail with
`ModuleNotFoundError`, upon which the constructor prints an install hint
and calls `exit(1)`; otherwise the window is initialized.  The class-level
state `s` (trajectory, toggles, ...) is NOT reset by construction. -/
def kissInit (polyscopeAvailable : Bool) (s : KissState) :
    CtorRes (KissState × PsState) :=
  if polyscopeAvailable then .ok (s, psInitialized)
  else .exitedWith 1 .polyscopeInstallHint

/-! ## The immediate-mode GUI callback (`Kissualizer._gui_callback`) -/

/-- What the user did during one `frame_tick()` of the imgui panel: which
buttons were pressed, which checkboxes were clicked (a click flips the
checkbox), and the new background color if it was edited. -/
structure GuiInput where
  startPause : Bool
  nextFrame : Bool
  centerViewpoint : Bool
  frameClicked : Bool
  keypointsClicked : Bool
  mapClicked : Bool
  bgEdit : Option Vec3
  globalViewClicked : Bool
  quitClicked : Bool

/-- A tick with no user interaction. -/
def GuiInput.idle : GuiInput :=
  { startPause := false, nextFrame := false, centerViewpoint := false,
    frameClicked := false, keypointsClicked := false, mapClicked := false,
    bgEdit := none, globalViewClicked := false, quitClicked := false }

/-- START/PAUSE button: toggles `play_mode`. -/
def gcStartPause (inp : GuiInput) (p : KissState × PsState) :
    KissState × PsState :=
  (if inp.startPause then { p.1 with playMode := !p.1.playMode } else p.1, p.2)

/-- NEXT FRAME button: only drawn while not in play mode (the guard reads
`play_mode` after the START/PAUSE button ran); toggles `block_execution`. -/
def gcNextFrame (inp : GuiInput) (p : KissState × PsState) :
    KissState × PsState :=
  (if !p.1.playMode && inp.nextFrame then
      { p.1 with blockExecution := !p.1.blockExecution }
    else p.1, p.2)

/-- "Frame Cloud" checkbox: a click flips `toggle_frame` and, since the
value changed, pushes it to the registered cloud via `set_enabled`. -/
def gcFrameCheckbox (inp : GuiInput) (p : KissState × PsState) :
    KissState × PsState :=
  if inp.frameClicked then
    ({ p.1 with toggleFrame := !p.1.toggleFrame },
      psSetEnabled p.2 .currentFrame (!p.1.toggleFrame))
  else p

/-- "Keypoints" checkbox. -/
def gcKeypointsCheckbox (inp : GuiInput) (p : KissState × PsState) :
    KissState × PsState :=
  if inp.keypointsClicked then
    ({ p.1 with toggleKeypoints := !p.1.toggleKeypoints },
      psSetEnabled p.2 .keypoints (!p.1.toggleKeypoints))
  else p

/-- "Local Map" checkbox. -/
def gcMapCheckbox (inp : GuiInput) (p : KissState × PsState) :
    KissState × PsState :=
  if inp.mapClicked then
    ({ p.1 with toggleMap := !p.1.toggleMap },
      psSetEnabled p.2 .localMap (!p.1.toggleMap))
  else p

/-- "Background Color" edit: on change, store and apply the new color. -/
def gcBackground (inp : GuiInput) (p : KissState × PsState) :
    KissState × PsState :=
  match inp.bgEdit with
  | some c => ({ p.1 with backgroundColor := c }, psSetBackgroundColor p.2 c)
  | none => p

/-- GLOBAL VIEW button: flip `global_view`, gate the trajectory cloud's
visibility by the new value, and repose the three clouds — to global view:
frame/keypoints get `last_pose`, map gets identity; back to ego view:
frame/keypoints get identity, map gets `inverse(last_pose)`.  (The camera
moves, `reset_camera_to_home_view`/`look_at`, are view-only and not part
of the modelled state.) -/
def gcGlobalView (inp : GuiInput) (p : KissState × PsState) :
    KissState × PsState :=
  if inp.globalViewClicked then
    let gv := !p.1.globalView
    let ps1 := psSetEnabled p.2 .trajectory gv
    let ps2 :=
      if gv then
        psSetTransform (psSetTransform
          (psSetTransform ps1 .currentFrame p.1.lastPose)
          .keypoints p.1.lastPose) .localMap 1
      else
        psSetTransform (psSetTransform
          (psSetTransform ps1 .currentFrame 1)
          .keypoints 1) .localMap (npLinalgInv p.1.lastPose)
    ({ p.1 with globalView := gv }, ps2)
  else p

/-- QUIT button: print "Destroying Visualizer", `unshow()` the window, and
`os._exit(0)`. -/
def gcQuit (inp : GuiInput) (p : KissState × PsState) :
    StepRes PsState (KissState × PsState) :=
  if inp.quitClicked then .exited 0 (psUnshow p.2) else .ok p

/-- The non-exiting prefix of `_gui_callback`, in source order. -/
def gcPipeline (inp : GuiInput) (p : KissState × PsState) :
    KissState × PsState :=
  gcGlobalView inp (gcBackground inp (gcMapCheckbox inp
    (gcKeypointsCheckbox inp (gcFrameCheckbox inp
      (gcNextFrame inp (gcStartPause inp p))))))

/-- `Kissualizer._gui_callback`, run by every `frame_tick()`. -/
def guiCallback (inp : GuiInput) (s : KissState) (ps : PsState) :
    StepRes PsState (KissState × PsState) :=
  gcQuit inp (gcPipeline inp (s, ps))

/-! ## The Kissualizer visualization loop and update -/

/-- The `while` loop of `_update_visualizer`:
`while block_execution: frame_tick(); if play_mode: break`.
`script` is the stream of user interactions, one per `frame_tick`; `polls`
accumulates how many ticks this call has performed.  Returns the state at
loop exit, the unconsumed interactions and the tick count. -/
def updateVisLoop :
    List GuiInput → KissState → PsState → ℕ →
    RunRes PsState ((KissState × PsState) × List GuiInput × ℕ)
  | script, s, ps, polls =>
    if s.blockExecution then
      match script with
      | [] => .stuck
      | inp :: rest =>
        match guiCallback inp s ps with
        | .exited c psF => .exited c psF
        | .ok (s', ps') =>
          if s'.playMode then .ok ((s', ps'), rest, polls + 1)
          else updateVisLoop rest s' ps' (polls + 1)
    else .ok ((s, ps), script, polls)

/-- `Kissualizer._update_visualizer`: the loop above followed by the
unconditional `block_execution = not block_execution`. -/
def updateVisualizer (script : List GuiInput) (s : KissState) (ps : PsState) :
    RunRes PsState ((KissState × PsState) × List GuiInput × ℕ) :=
  match updateVisLoop script s ps 0 with
  | .ok ((s', ps'), rest, polls) =>
    .ok (({ s' with blockExecution := !s'.blockExecution }, ps'), rest, polls)
  | .exited c psF => .exited c psF
  | .stuck => .stuck

/-- The geometry pass of `Kissualizer.update` (lines before the
visualization loop): register the three clouds with their colors, radii,
view-dependent transforms and visibility toggles, append the pose's
translation to the class-level trajectory, register the trajectory cloud
(its points only shown in global view), and cache `last_pose`. -/
def kissUpdateGeometries (source keypoints targetMapPoints : List Vec3)
    (pose : Mat4) (s : KissState) (ps : PsState) : KissState × PsState :=
  let ps := psRegisterPointCloud ps .currentFrame source FRAME_COLOR .quad
  let ps := psSetRadius ps .currentFrame (2/10)
  let ps := psSetTransform ps .currentFrame (if s.globalView then pose else 1)
  let ps := psSetEnabled ps .currentFrame s.toggleFrame
  let ps := psRegisterPointCloud ps .keypoints keypoints KEYPOINTS_COLOR .quad
  let ps := psSetRadius ps .keypoints (3/10)
  let ps := psSetTransform ps .keypoints (if s.globalView then pose else 1)
  let ps := psSetEnabled ps .keypoints s.toggleKeypoints
  let ps := psRegisterPointCloud ps .localMap targetMapPoints LOCAL_MAP_COLOR .quad
  let ps := psSetRadius ps .localMap (1/10)
  let ps := psSetTransform ps .localMap
    (if s.globalView then (1 : Mat4) else npLinalgInv pose)
  let ps := psSetEnabled ps .localMap s.toggleMap
  let s := { s with trajectory := s.trajectory ++ [translationOf pose] }
  let ps := psRegisterPointCloud ps .trajectory
    (if s.globalView then s.trajectory else [![0, 0, 0]])
    TRAJECTORY_COLOR .sphere
  let ps := psSetRadius ps .trajectory (5/10)
  let s := { s with lastPose := pose }
  (s, ps)

/-- `Kissualizer.update(source, keypoints, target_map, pose)`:
the geometry pass followed by the visualization loop.
`targetMapPoints` is `target_map.point_cloud()`. -/
def kissUpdate (source keypoints targetMapPoints : List Vec3) (pose : Mat4)
    (script : List GuiInput) (s : KissState) (ps : PsState) :
    RunRes PsState ((KissState × PsState) × List GuiInput × ℕ) :=
  let sp := kissUpdateGeometries source keypoints targetMapPoints pose s ps
  updateVisualizer script sp.1 sp.2

/-- One frame delivered by the pipeline, together with the user
interaction observed while the viewer blocks on it. -/
structure KissFrame where
  source : List Vec3
  keypoints : List Vec3
  targetMapPoints : List Vec3
  pose : Mat4
  script : List GuiInput

/-- A session: one `Kissualizer.update` call per frame. -/
def kissRun : List KissFrame → KissState → PsState →
    RunRes PsState (KissState × PsState)
  | [], s, ps => .ok (s, ps)
  | f :: fs, s, ps =>
    match kissUpdate f.source f.keypoints f.targetMapPoints f.pose f.script s ps with
    | .ok ((s', ps'), _, _) => kissRun fs s' ps'
    | .exited c psF => .exited c psF
    | .stuck => .stuck

/-- Like `kissRun`, but also log, for each update call, the `play_mode`
and `block_execution` flags at call entry and the number of event-loop
polls (`frame_tick`s) the call performed. -/
def kissRunLog : List KissFrame → KissState → PsState →
    Option (List (Bool × Bool × ℕ))
  | [], _, _ => some []
  | f :: fs, s, ps =>
    match kissUpdate f.source f.keypoints f.targetMapPoints f.pose f.script s ps with
    | .ok ((s', ps'), _, polls) =>
      (kissRunLog fs s' ps').map fun l =>
        (s.playMode, s.blockExecution, polls) :: l
    | _ => none

/-- The final trajectory of a normally-finished session. -/
def kissRunTraj? (r : RunRes PsState (KissState × PsState)) :
    Option (List Vec3) :=
  match r with
  | .ok (s, _) => some s.trajectory
  | _ => none

/-! ## The open3d backend (`RegistrationVisualizer`) -/

/-- An open3d `PointCloud`: a points array and a uniform paint color (set
by `paint_uniform_color`), if one has been applied. -/
structure O3Cloud where
  points : List Vec3
  color : Option Vec3

/-- A fresh `o3d.geometry.PointCloud()`. -/
def o3EmptyCloud : O3Cloud := { points := [], color := none }

/-- `cloud.paint_uniform_color(c)`. -/
def o3PaintUniform (c : O3Cloud) (col : Vec3) : O3Cloud :=
  { c with color := some col }

/-- `cloud.transform(m)` — applies the homogeneous transform to every
point of the cloud, in place. -/
def o3Transform (m : Mat4) (c : O3Cloud) : O3Cloud :=
  { c with points := c.points.map (applyTf m) }

/-- `TriangleMesh.create_sphere(SPHERE_SIZE)` — a mesh at the origin,
modelled by its accumulated transform. -/
def o3CreateSphere : Mat4 := 1

/-- `mesh.transform(m)` — composes `m` onto the mesh's placement. -/
def o3MeshTransform (m tf : Mat4) : Mat4 := m * tf

/-- `vis.add_geometry(frame, reset_bounding_box=False)` on the list of
frame markers currently in the scene. -/
def o3AddGeometry (shown : List Mat4) (g : Mat4) : List Mat4 := shown ++ [g]

/-- `vis.remove_geometry(frame, reset_bounding_box=False)`. -/
def o3RemoveGeometry (shown : List Mat4) (g : Mat4) : List Mat4 := shown.erase g

/-- The instance state of `RegistrationVisualizer`: GUI controls, the three
persistent clouds, the per-frame pose-marker history (`frames`), the subset
of markers currently added to the scene, the visualization options, the
cached option tuple, and window-level settings. -/
structure RVState where
  blockVis : Bool
  playCrun : Bool
  resetBoundingBox : Bool
  source : O3Cloud
  keypoints : O3Cloud
  target : O3Cloud
  frames : List Mat4
  shownFrames : List Mat4
  renderMap : Bool
  renderSource : Bool
  renderKeypoints : Bool
  globalView : Bool
  renderTrajectory : Bool
  stateCache : Bool × Bool × Bool
  backgroundColor : Vec3
  pointSize : ℚ
  windowAlive : Bool

/-- The state built by `RegistrationVisualizer.__init__` when the
open3d import succeeds (window created, black background, point size 1, and
`state = (render_map, render_keypoints, render_source)` cached). -/
def rvInitState : RVState :=
  { blockVis := true, playCrun := false, resetBoundingBox := true,
    source := o3EmptyCloud, keypoints := o3EmptyCloud, target := o3EmptyCloud,
    frames := [], shownFrames := [],
    renderMap := true, renderSource := true, renderKeypoints := false,
    globalView := false, renderTrajectory := true,
    stateCache := (true, false, true),
    backgroundColor := ![0, 0, 0], pointSize := 1, windowAlive := true }

/-- `RegistrationVisualizer.__init__`: a failing open3d import prints an
install hint and calls `exit(1)`; otherwise the visualizer is built. -/
def rvInit (open3dAvailable : Bool) : CtorRes RVState :=
  if open3dAvailable then .ok rvInitState
  else .exitedWith 1 .open3dInstallHint

/-- `_quit` ([ESC]/[Q]): print, `destroy_window()`, `os._exit(0)`. -/
def rvDestroyWindow (st : RVState) : RVState := { st with windowAlive := false }

/-- `_next_frame` ([N]). -/
def rvNextFrame (st : RVState) : RVState := { st with blockVis := !st.blockVis }

/-- `_start_stop` ([SPACE]). -/
def rvStartStop (st : RVState) : RVState := { st with playCrun := !st.playCrun }

/-- `_toggle_source` ([F]): if keypoints are rendered, switch back to the
source cloud; otherwise toggle the source cloud. -/
def rvToggleSource (st : RVState) : RVState :=
  if st.renderKeypoints then
    { st with renderKeypoints := false, renderSource := true }
  else
    { st with renderSource := !st.renderSource }

/-- `_toggle_keypoints` ([K]): if the source cloud is rendered, switch to
keypoints; otherwise toggle keypoints. -/
def rvToggleKeypoints (st : RVState) : RVState :=
  if st.renderSource then
    { st with renderSource := false, renderKeypoints := true }
  else
    { st with renderKeypoints := !st.renderKeypoints }

/-- `_toggle_map` ([M]). -/
def rvToggleMap (st : RVState) : RVState := { st with renderMap := !st.renderMap }

/-- `_trajectory_handle`: batch add (resp. remove) every accumulated frame
marker to/from the scene, depending on `render_trajectory and global_view`. -/
def rvTrajectoryHandle (st : RVState) : RVState :=
  if st.renderTrajectory && st.globalView then
    { st with shownFrames := st.frames.foldl o3AddGeometry st.shownFrames }
  else
    { st with shownFrames := st.frames.foldl o3RemoveGeometry st.shownFrames }

/-- `_toggle_view` ([V]): flip `global_view`, then handle the markers. -/
def rvToggleView (st : RVState) : RVState :=
  rvTrajectoryHandle { st with globalView := !st.globalView }

/-- `_center_viewpoint` ([C]): `reset_view_point(True)` — view only. -/
def rvCenterViewpoint (st : RVState) : RVState := st

/-- `_toggle_trajectory` ([T]): only effective in global view. -/
def rvToggleTrajectory (st : RVState) : RVState :=
  if !st.globalView then st
  else rvTrajectoryHandle { st with renderTrajectory := !st.renderTrajectory }

def rvSetBlackBackground (st : RVState) : RVState :=
  { st with backgroundColor := ![0, 0, 0] }

def rvSetWhiteBackground (st : RVState) : RVState :=
  { st with backgroundColor := ![1, 1, 1] }

/-- The keys `_register_key_callbacks` binds. -/
inductive RVKey where
  | q | space | n | v | c | f | k | m | t | b | w
deriving DecidableEq

/-- The key-callback dispatch table. -/
def rvKeyCallback : RVKey → RVState → StepRes RVState RVState
  | .q, st => .exited 0 (rvDestroyWindow st)
  | .space, st => .ok (rvStartStop st)
  | .n, st => .ok (rvNextFrame st)
  | .v, st => .ok (rvToggleView st)
  | .c, st => .ok (rvCenterViewpoint st)
  | .f, st => .ok (rvToggleSource st)
  | .k, st => .ok (rvToggleKeypoints st)
  | .m, st => .ok (rvToggleMap st)
  | .t, st => .ok (rvToggleTrajectory st)
  | .b, st => .ok (rvSetBlackBackground st)
  | .w, st => .ok (rvSetWhiteBackground st)

/-- `vis.poll_events()`: dispatch the key presses observed in this poll. -/
def rvPollEvents : List RVKey → RVState → StepRes RVState RVState
  | [], st => .ok st
  | key :: keys, st =>
    match rvKeyCallback key st with
    | .ok st' => rvPollEvents keys st'
    | .exited code fin => .exited code fin

/-- The `while` loop of `RegistrationVisualizer.update`:
`while block_vis: poll_events(); update_renderer(); if play_crun: break`.
`script` holds the key presses observed during each poll. -/
def rvUpdateLoop : List (List RVKey) → RVState → ℕ →
    RunRes RVState (RVState × List (List RVKey) × ℕ)
  | script, st, polls =>
    if st.blockVis then
      match script with
      | [] => .stuck
      | keys :: rest =>
        match rvPollEvents keys st with
        | .exited code fin => .exited code fin
        | .ok st' =>
          if st'.playCrun then .ok (st', rest, polls + 1)
          else rvUpdateLoop rest st' (polls + 1)
    else .ok (st, script, polls)

/-- Source hot frame part of `_update_geometries`: set the points, paint
cyan, and lift by the pose when in global view; cleared when hidden. -/
def rvUpdateSource (source : List Vec3) (pose : Mat4) (st : RVState) : RVState :=
  if st.renderSource then
    { st with source :=
        if st.globalView then
          o3Transform pose (o3PaintUniform { st.source with points := source } CYAN)
        else o3PaintUniform { st.source with points := source } CYAN }
  else { st with source := { st.source with points := [] } }

/-- Keypoints part of `_update_geometries`. -/
def rvUpdateKeypointsCloud (keypoints : List Vec3) (pose : Mat4) (st : RVState) :
    RVState :=
  if st.renderKeypoints then
    { st with keypoints :=
        if st.globalView then
          o3Transform pose (o3PaintUniform { st.keypoints with points := keypoints } CYAN)
        else o3PaintUniform { st.keypoints with points := keypoints } CYAN }
  else { st with keypoints := { st.keypoints with points := [] } }

/-- Target-map part of `_update_geometries` (the numpy array is deep-copied
first, which the value semantics of the model gives for free): painted gray
in global view, pulled back by `inverse(pose)` in ego view. -/
def rvUpdateTarget (target : List Vec3) (pose : Mat4) (st : RVState) : RVState :=
  if st.renderMap then
    { st with target :=
        if st.globalView then
          o3PaintUniform { st.target with points := target } GRAY
        else o3Transform (npLinalgInv pose) { st.target with points := target } }
  else { st with target := { st.target with points := [] } }

/-- The per-frame pose marker: a sphere transformed by the pose, appended
to `frames` unconditionally and added to the scene only when the
trajectory is rendered in global view. -/
def rvAppendFrameMarker (pose : Mat4) (st : RVState) : RVState :=
  let newFrame := o3MeshTransform pose o3CreateSphere
  let st := { st with frames := st.frames ++ [newFrame] }
  if st.renderTrajectory && st.globalView then
    { st with shownFrames := o3AddGeometry st.shownFrames newFrame }
  else st

/-- Final `reset_view_point(True)` of `_update_geometries`, done once. -/
def rvFinishBoundingBox (st : RVState) : RVState :=
  if st.resetBoundingBox then { st with resetBoundingBox := false } else st

/-- `RegistrationVisualizer._update_geometries(source, keypoints, target, pose)`. -/
def rvUpdateGeometries (source keypoints target : List Vec3) (pose : Mat4)
    (st : RVState) : RVState :=
  rvFinishBoundingBox (rvAppendFrameMarker pose
    (rvUpdateTarget target pose
      (rvUpdateKeypointsCloud keypoints pose
        (rvUpdateSource source pose st))))

/-- `RegistrationVisualizer.update(source, keypoints, target_map, pose)`:
geometry pass, blocking poll loop, then `block_vis = not block_vis`. -/
def rvUpdate (source keypoints targetMapPoints : List Vec3) (pose : Mat4)
    (script : List (List RVKey)) (st : RVState) :
    RunRes RVState (RVState × List (List RVKey) × ℕ) :=
  let st1 := rvUpdateGeometries source keypoints targetMapPoints pose st
  match rvUpdateLoop script st1 0 with
  | .ok (st2, rest, polls) => .ok ({ st2 with blockVis := !st2.blockVis }, rest, polls)
  | .exited code fin => .exited code fin
  | .stuck => .stuck

/-- One frame delivered to the open3d backend. -/
structure RVFrame where
  source : List Vec3
  keypoints : List Vec3
  targetMapPoints : List Vec3
  pose : Mat4
  script : List (List RVKey)

/-- A session with the open3d backend. -/
def rvRun : List RVFrame → RVState → RunRes RVState RVState
  | [], st => .ok st
  | f :: fs, st =>
    match rvUpdate f.source f.keypoints f.targetMapPoints f.pose f.script st with
    | .ok (st', _, _) => rvRun fs st'
    | .exited code fin => .exited code fin
    | .stuck => .stuck

/-- The marker history of a normally-finished open3d session. -/
def rvRunFrames? (r : RunRes RVState RVState) : Option (List Mat4) :=
  match r with
  | .ok st => some st.frames
  | _ => none

/-! ## The stub backend (`StubVisualizer`) -/

/-- `StubVisualizer.update(source, keypoints, target_map, pose)` — the
method body is `pass`: it reads and writes nothing, performs zero polls of
any event loop, and returns immediately.  `w` is an arbitrary ambient
world (so the statement covers any renderer/viewer state one may care
about); the second component counts event-loop polls. -/
def stubUpdate {α : Type} (source keypoints targetMapPoints : List Vec3)
    (pose : Mat4) (w : α) : α × ℕ :=
  (w, 0)

/-! ## Auxiliary definitions used by the statements below -/

/-- The two visibility toggles of the exclusivity pair ([F] and [K]). -/
inductive FKToggle where
  | source
  | keypoints
deriving DecidableEq

/-- Apply one of the two toggles. -/
def applyFKToggle : FKToggle → RVState → RVState
  | .source => rvToggleSource
  | .keypoints => rvToggleKeypoints

/-- A tick whose only interaction is a press of the GLOBAL VIEW button. -/
def gvClickInput : GuiInput := { GuiInput.idle with globalViewClicked := true }

/-- A tick whose only interaction is a press of START/PAUSE. -/
def startClickInput : GuiInput := { GuiInput.idle with startPause := true }

/-- A tick whose only interaction is a press of NEXT FRAME. -/
def stepClickInput : GuiInput := { GuiInput.idle with nextFrame := true }

/-- A tick whose only interaction is a press of QUIT. -/
def quitClickInput : GuiInput := { GuiInput.idle with quitClicked := true }

/-- `Kissualizer.update` as invoked on a particular instance.  The method
body reads and writes only `Kissualizer.<attr>` class attributes, so the
receiving instance is irrelevant and the parameter is unused. -/
def kissUpdateOn (instanceId : ℕ) (source keypoints targetMapPoints : List Vec3)
    (pose : Mat4) (script : List GuiInput) (s : KissState) (ps : PsState) :
    RunRes PsState ((KissState × PsState) × List GuiInput × ℕ) :=
  kissUpdate source keypoints targetMapPoints pose script s ps

/-- The trajectory as read through a particular instance: Python attribute
lookup falls through to the class attribute. -/
def kissTrajectoryOf (instanceId : ℕ) (s : KissState) : List Vec3 :=
  s.trajectory

/-- `last_pose` as read through a particular instance. -/
def kissLastPoseOf (instanceId : ℕ) (s : KissState) : Mat4 :=
  s.lastPose

/-- First frame of the play-mode poll-count scenario: the user presses
START/PAUSE during the (single) poll of the first update call. -/
def cxFrameA : KissFrame :=
  { source := [], keypoints := [], targetMapPoints := [], pose := 1,
    script := [startClickInput] }

/-- Second frame of the scenario: no user interaction at all. -/
def cxFrameB : KissFrame :=
  { source := [], keypoints := [], targetMapPoints := [], pose := 1,
    script := [] }

/-- A frame whose blocked update is released by a NEXT FRAME press. -/
def wKissFrame : KissFrame :=
  { source := [], keypoints := [], targetMapPoints := [], pose := 1,
    script := [stepClickInput] }

/-- An open3d frame whose blocked update is released by an [N] press. -/
def wRvFrame : RVFrame :=
  { source := [], keypoints := [], targetMapPoints := [], pose := 1,
    script := [[RVKey.n]] }

/-- A frame during whose update the user presses QUIT. -/
def quitKissFrame : KissFrame :=
  { source := [], keypoints := [], targetMapPoints := [], pose := 1,
    script := [quitClickInput] }

/-! ## Helper lemmas -/

@[simp] theorem psModifyCloud_clouds_same (ps : PsState) (n : GeomName)
    (f : PsCloud → PsCloud) :
    (psModifyCloud ps n f).clouds n = (ps.clouds n).map f := by
  simp [psModifyCloud]

theorem psModifyCloud_clouds_ne (ps : PsState) {n n' : GeomName}
    (f : PsCloud → PsCloud) (h : n' ≠ n) :
    (psModifyCloud ps n f).clouds n' = ps.clouds n' := by
  simp [psModifyCloud, h]

/-- The [F]/[K] key callbacks preserve "not both rendered". -/
theorem applyFKToggle_inv (t : FKToggle) (st : RVState)
    (h : (st.renderSource && st.renderKeypoints) = false) :
    ((applyFKToggle t st).renderSource && (applyFKToggle t st).renderKeypoints)
      = false := by
  cases t <;>
    simp only [applyFKToggle, rvToggleSource, rvToggleKeypoints] <;>
    cases hs : st.renderSource <;> cases hk : st.renderKeypoints <;>
    simp_all

/-- The invariant of `applyFKToggle_inv`, over any toggle sequence. -/
theorem foldl_FKToggle_inv : ∀ (ts : List FKToggle) (st : RVState),
    (st.renderSource && st.renderKeypoints) = false →
    ((ts.foldl (fun s t => applyFKToggle t s) st).renderSource &&
     (ts.foldl (fun s t => applyFKToggle t s) st).renderKeypoints) = false := by
  intro ts
  induction ts with
  | nil => intro st h; simpa using h
  | cons t ts ih =>
    intro st h
    simpa using ih (applyFKToggle t st) (applyFKToggle_inv t st h)

/-! ## Claims -/

/-- C7: if the rendering-backend module cannot be imported, the facade's
constructor prints an install hint and terminates the process with exit
status 1 (non-zero) at construction time; the failure is never deferred
or returned as a value — when the import succeeds, and only then, the
constructor returns the visualizer (the Kissualizer's class-level state
`s` passing through untouched). -/
theorem fatal_construction_missing_backend :
    (∀ s : KissState, kissInit false s = .exitedWith 1 .polyscopeInstallHint)
    ∧ rvInit false = .exitedWith 1 .open3dInstallHint
    ∧ (∀ s : KissState, kissInit true s = .ok (s, psInitialized))
    ∧ rvInit true = .ok rvInitState :=
  ⟨fun _ => rfl, rfl, fun _ => rfl, rfl⟩

/-- C8: `StubVisualizer.update` is a pure no-op for every input: it leaves
any ambient world `w` (viewer state, renderer state, anything) unchanged,
performs zero event-loop polls (no blocking), and pushes nothing anywhere;
its argument list (source, keypoints, target_map points, pose) is the same
as the real facade's `update`. -/
theorem stub_update_noop :
    ∀ (α : Type) (source keypoints targetMapPoints : List Vec3) (pose : Mat4)
      (w : α), stubUpdate source keypoints targetMapPoints pose w = (w, 0) :=
  fun _ _ _ _ _ _ => rfl

/-- C9: in the open3d backend, starting from the initial visibility state
(frame cloud visible, keypoints hidden), after any finite sequence of [F]
and [K] toggles the flags `render_source` and `render_keypoints` are never
both true; and the pair can reach the state where both are false (a single
[F] press does it). -/
theorem render_flags_never_both_true :
    (∀ ts : List FKToggle,
      ((ts.foldl (fun s t => applyFKToggle t s) rvInitState).renderSource &&
       (ts.foldl (fun s t => applyFKToggle t s) rvInitState).renderKeypoints)
        = false)
    ∧ (applyFKToggle .source rvInitState).renderSource = false
    ∧ (applyFKToggle .source rvInitState).renderKeypoints = false :=
  ⟨fun ts => foldl_FKToggle_inv ts rvInitState rfl, rfl, rfl⟩

/-- C4 counterexample: from the initial state (frame cloud visible,
keypoints hidden), applying the keypoints toggle twice in a row does NOT
return the visibility state to what it was: it ends with both flags false,
whereas frame-cloud visibility started out true. -/
theorem toggle_twice_counterexample :
    rvInitState.renderSource = true
    ∧ rvInitState.renderKeypoints = false
    ∧ (rvToggleKeypoints (rvToggleKeypoints rvInitState)).renderSource = false
    ∧ (rvToggleKeypoints (rvToggleKeypoints rvInitState)).renderKeypoints = false :=
  ⟨rfl, rfl, rfl, rfl⟩

/-- C4 (amended): in the open3d backend, from a state where frame-cloud
visibility is true, the keypoints toggle leaves exactly one of
{frame, keypoints} visible (frame off, keypoints on); and applying the
same toggle control twice in a row returns the visibility pair to what it
was provided the OTHER flag of the pair was false before the first
application — when the other flag was true (the exclusivity-enforcing
branch), the double application instead ends with both flags false. -/
theorem mutual_exclusivity_amended :
    (∀ st : RVState, st.renderSource = true →
      (rvToggleKeypoints st).renderSource = false
      ∧ (rvToggleKeypoints st).renderKeypoints = true)
    ∧ (∀ st : RVState, st.renderSource = false →
      (rvToggleKeypoints (rvToggleKeypoints st)).renderSource = st.renderSource
      ∧ (rvToggleKeypoints (rvToggleKeypoints st)).renderKeypoints
          = st.renderKeypoints)
    ∧ (∀ st : RVState, st.renderKeypoints = false →
      (rvToggleSource (rvToggleSource st)).renderSource = st.renderSource
      ∧ (rvToggleSource (rvToggleSource st)).renderKeypoints
          = st.renderKeypoints)
    ∧ (∀ st : RVState, st.renderSource = true →
      (rvToggleKeypoints (rvToggleKeypoints st)).renderSource = false
      ∧ (rvToggleKeypoints (rvToggleKeypoints st)).renderKeypoints = false) := by
  refine ⟨fun st h => ?_, fun st h => ?_, fun st h => ?_, fun st h => ?_⟩
  · simp [rvToggleKeypoints, h]
  · simp [rvToggleKeypoints, h]
  · simp [rvToggleSource, h]
  · simp [rvToggleKeypoints, h]

/-- Witness for C4's amended theorem at concrete states. -/
theorem mutual_exclusivity_amended_witness :
    ((rvToggleKeypoints rvInitState).renderSource = false
      ∧ (rvToggleKeypoints rvInitState).renderKeypoints = true)
    ∧ ((rvToggleKeypoints (rvToggleKeypoints
          { rvInitState with renderSource := false })).renderSource
        = ({ rvInitState with renderSource := false } : RVState).renderSource
      ∧ (rvToggleKeypoints (rvToggleKeypoints
          { rvInitState with renderSource := false })).renderKeypoints
        = ({ rvInitState with renderSource := false } : RVState).renderKeypoints)
    ∧ ((rvToggleSource (rvToggleSource rvInitState)).renderSource
          = rvInitState.renderSource
      ∧ (rvToggleSource (rvToggleSource rvInitState)).renderKeypoints
          = rvInitState.renderKeypoints)
    ∧ ((rvToggleKeypoints (rvToggleKeypoints rvInitState)).renderSource = false
      ∧ (rvToggleKeypoints (rvToggleKeypoints rvInitState)).renderKeypoints
          = false) :=
  ⟨mutual_exclusivity_amended.1 rvInitState rfl,
   mutual_exclusivity_amended.2.1 _ rfl,
   mutual_exclusivity_amended.2.2.1 rvInitState rfl,
   mutual_exclusivity_amended.2.2.2 rvInitState rfl⟩

/-- C10: all view and playback state of the polyscope backend lives in
class-level attributes, modelled as the single process-wide `KissState`:
`update` called on any instance is the same function of that shared state
(so an append performed via instance `i` is exactly what instance `j`
observes when reading the shared trajectory / `last_pose`), and
constructing a new `Kissualizer` passes the class-level state through
untouched, so the trajectory persists across construction of new
instances within one process. -/
theorem class_level_shared_state :
    (∀ (i j : ℕ) (source keypoints targetMapPoints : List Vec3) (pose : Mat4)
       (script : List GuiInput) (s : KissState) (ps : PsState),
      kissUpdateOn i source keypoints targetMapPoints pose script s ps
        = kissUpdateOn j source keypoints targetMapPoints pose script s ps)
    ∧ (∀ (i j : ℕ) (s : KissState),
      kissTrajectoryOf i s = kissTrajectoryOf j s
      ∧ kissLastPoseOf i s = kissLastPoseOf j s)
    ∧ (∀ s : KissState, kissInit true s = .ok (s, psInitialized))
    ∧ (∀ (source keypoints targetMapPoints : List Vec3) (pose : Mat4)
       (s : KissState) (ps : PsState),
      (kissUpdateGeometries source keypoints targetMapPoints pose s ps).1.trajectory
        = s.trajectory ++ [translationOf pose]
      ∧ (kissUpdateGeometries source keypoints targetMapPoints pose s ps).1.lastPose
        = pose) :=
  ⟨fun _ _ _ _ _ _ _ _ _ => rfl, fun _ _ _ => ⟨rfl, rfl⟩, fun _ => rfl,
   fun _ _ _ _ _ _ => ⟨rfl, rfl⟩⟩


/-! ### Projection lemmas for the open3d geometry stages -/

@[simp] theorem rvUpdateSource_keypoints (source : List Vec3) (pose : Mat4)
    (st : RVState) : (rvUpdateSource source pose st).keypoints = st.keypoints := by
  unfold rvUpdateSource; split <;> rfl

@[simp] theorem rvUpdateSource_target (source : List Vec3) (pose : Mat4)
    (st : RVState) : (rvUpdateSource source pose st).target = st.target := by
  unfold rvUpdateSource; split <;> rfl

@[simp] theorem rvUpdateSource_frames (source : List Vec3) (pose : Mat4)
    (st : RVState) : (rvUpdateSource source pose st).frames = st.frames := by
  unfold rvUpdateSource; split <;> rfl

@[simp] theorem rvUpdateSource_renderKeypoints (source : List Vec3) (pose : Mat4)
    (st : RVState) :
    (rvUpdateSource source pose st).renderKeypoints = st.renderKeypoints := by
  unfold rvUpdateSource; split <;> rfl

@[simp] theorem rvUpdateSource_renderMap (source : List Vec3) (pose : Mat4)
    (st : RVState) : (rvUpdateSource source pose st).renderMap = st.renderMap := by
  unfold rvUpdateSource; split <;> rfl

@[simp] theorem rvUpdateSource_globalView (source : List Vec3) (pose : Mat4)
    (st : RVState) : (rvUpdateSource source pose st).globalView = st.globalView := by
  unfold rvUpdateSource; split <;> rfl

@[simp] theorem rvUpdateSource_renderTrajectory (source : List Vec3) (pose : Mat4)
    (st : RVState) :
    (rvUpdateSource source pose st).renderTrajectory = st.renderTrajectory := by
  unfold rvUpdateSource; split <;> rfl

@[simp] theorem rvUpdateSource_resetBoundingBox (source : List Vec3) (pose : Mat4)
    (st : RVState) :
    (rvUpdateSource source pose st).resetBoundingBox = st.resetBoundingBox := by
  unfold rvUpdateSource; split <;> rfl

@[simp] theorem rvUpdateSource_blockVis (source : List Vec3) (pose : Mat4)
    (st : RVState) : (rvUpdateSource source pose st).blockVis = st.blockVis := by
  unfold rvUpdateSource; split <;> rfl

@[simp] theorem rvUpdateSource_playCrun (source : List Vec3) (pose : Mat4)
    (st : RVState) : (rvUpdateSource source pose st).playCrun = st.playCrun := by
  unfold rvUpdateSource; split <;> rfl

@[simp] theorem rvUpdateSource_shownFrames (source : List Vec3) (pose : Mat4)
    (st : RVState) :
    (rvUpdateSource source pose st).shownFrames = st.shownFrames := by
  unfold rvUpdateSource; split <;> rfl

@[simp] theorem rvUpdateKeypointsCloud_source (keypoints : List Vec3) (pose : Mat4)
    (st : RVState) :
    (rvUpdateKeypointsCloud keypoints pose st).source = st.source := by
  unfold rvUpdateKeypointsCloud; split <;> rfl

@[simp] theorem rvUpdateKeypointsCloud_target (keypoints : List Vec3) (pose : Mat4)
    (st : RVState) :
    (rvUpdateKeypointsCloud keypoints pose st).target = st.target := by
  unfold rvUpdateKeypointsCloud; split <;> rfl

@[simp] theorem rvUpdateKeypointsCloud_frames (keypoints : List Vec3) (pose : Mat4)
    (st : RVState) :
    (rvUpdateKeypointsCloud keypoints pose st).frames = st.frames := by
  unfold rvUpdateKeypointsCloud; split <;> rfl

@[simp] theorem rvUpdateKeypointsCloud_renderMap (keypoints : List Vec3)
    (pose : Mat4) (st : RVState) :
    (rvUpdateKeypointsCloud keypoints pose st).renderMap = st.renderMap := by
  unfold rvUpdateKeypointsCloud; split <;> rfl

@[simp] theorem rvUpdateKeypointsCloud_globalView (keypoints : List Vec3)
    (pose : Mat4) (st : RVState) :
    (rvUpdateKeypointsCloud keypoints pose st).globalView = st.globalView := by
  unfold rvUpdateKeypointsCloud; split <;> rfl

@[simp] theorem rvUpdateKeypointsCloud_renderTrajectory (keypoints : List Vec3)
    (pose : Mat4) (st : RVState) :
    (rvUpdateKeypointsCloud keypoints pose st).renderTrajectory
      = st.renderTrajectory := by
  unfold rvUpdateKeypointsCloud; split <;> rfl

@[simp] theorem rvUpdateKeypointsCloud_resetBoundingBox (keypoints : List Vec3)
    (pose : Mat4) (st : RVState) :
    (rvUpdateKeypointsCloud keypoints pose st).resetBoundingBox
      = st.resetBoundingBox := by
  unfold rvUpdateKeypointsCloud; split <;> rfl

@[simp] theorem rvUpdateKeypointsCloud_blockVis (keypoints : List Vec3)
    (pose : Mat4) (st : RVState) :
    (rvUpdateKeypointsCloud keypoints pose st).blockVis = st.blockVis := by
  unfold rvUpdateKeypointsCloud; split <;> rfl

@[simp] theorem rvUpdateKeypointsCloud_playCrun (keypoints : List Vec3)
    (pose : Mat4) (st : RVState) :
    (rvUpdateKeypointsCloud keypoints pose st).playCrun = st.playCrun := by
  unfold rvUpdateKeypointsCloud; split <;> rfl

@[simp] theorem rvUpdateKeypointsCloud_shownFrames (keypoints : List Vec3)
    (pose : Mat4) (st : RVState) :
    (rvUpdateKeypointsCloud keypoints pose st).shownFrames = st.shownFrames := by
  unfold rvUpdateKeypointsCloud; split <;> rfl

@[simp] theorem rvUpdateTarget_source (target : List Vec3) (pose : Mat4)
    (st : RVState) : (rvUpdateTarget target pose st).source = st.source := by
  unfold rvUpdateTarget; split <;> rfl

@[simp] theorem rvUpdateTarget_keypoints (target : List Vec3) (pose : Mat4)
    (st : RVState) : (rvUpdateTarget target pose st).keypoints = st.keypoints := by
  unfold rvUpdateTarget; split <;> rfl

@[simp] theorem rvUpdateTarget_frames (target : List Vec3) (pose : Mat4)
    (st : RVState) : (rvUpdateTarget target pose st).frames = st.frames := by
  unfold rvUpdateTarget; split <;> rfl

@[simp] theorem rvUpdateTarget_globalView (target : List Vec3) (pose : Mat4)
    (st : RVState) : (rvUpdateTarget target pose st).globalView = st.globalView := by
  unfold rvUpdateTarget; split <;> rfl

@[simp] theorem rvUpdateTarget_renderTrajectory (target : List Vec3) (pose : Mat4)
    (st : RVState) :
    (rvUpdateTarget target pose st).renderTrajectory = st.renderTrajectory := by
  unfold rvUpdateTarget; split <;> rfl

@[simp] theorem rvUpdateTarget_resetBoundingBox (target : List Vec3) (pose : Mat4)
    (st : RVState) :
    (rvUpdateTarget target pose st).resetBoundingBox = st.resetBoundingBox := by
  unfold rvUpdateTarget; split <;> rfl

@[simp] theorem rvUpdateTarget_blockVis (target : List Vec3) (pose : Mat4)
    (st : RVState) : (rvUpdateTarget target pose st).blockVis = st.blockVis := by
  unfold rvUpdateTarget; split <;> rfl

@[simp] theorem rvUpdateTarget_playCrun (target : List Vec3) (pose : Mat4)
    (st : RVState) : (rvUpdateTarget target pose st).playCrun = st.playCrun := by
  unfold rvUpdateTarget; split <;> rfl

@[simp] theorem rvUpdateTarget_shownFrames (target : List Vec3) (pose : Mat4)
    (st : RVState) :
    (rvUpdateTarget target pose st).shownFrames = st.shownFrames := by
  unfold rvUpdateTarget; split <;> rfl

@[simp] theorem rvAppendFrameMarker_source (pose : Mat4) (st : RVState) :
    (rvAppendFrameMarker pose st).source = st.source := by
  unfold rvAppendFrameMarker; dsimp only; split <;> rfl

@[simp] theorem rvAppendFrameMarker_keypoints (pose : Mat4) (st : RVState) :
    (rvAppendFrameMarker pose st).keypoints = st.keypoints := by
  unfold rvAppendFrameMarker; dsimp only; split <;> rfl

@[simp] theorem rvAppendFrameMarker_target (pose : Mat4) (st : RVState) :
    (rvAppendFrameMarker pose st).target = st.target := by
  unfold rvAppendFrameMarker; dsimp only; split <;> rfl

@[simp] theorem rvAppendFrameMarker_frames (pose : Mat4) (st : RVState) :
    (rvAppendFrameMarker pose st).frames
      = st.frames ++ [o3MeshTransform pose o3CreateSphere] := by
  unfold rvAppendFrameMarker; dsimp only; split <;> rfl

@[simp] theorem rvAppendFrameMarker_blockVis (pose : Mat4) (st : RVState) :
    (rvAppendFrameMarker pose st).blockVis = st.blockVis := by
  unfold rvAppendFrameMarker; dsimp only; split <;> rfl

@[simp] theorem rvAppendFrameMarker_playCrun (pose : Mat4) (st : RVState) :
    (rvAppendFrameMarker pose st).playCrun = st.playCrun := by
  unfold rvAppendFrameMarker; dsimp only; split <;> rfl

@[simp] theorem rvFinishBoundingBox_source (st : RVState) :
    (rvFinishBoundingBox st).source = st.source := by
  unfold rvFinishBoundingBox; split <;> rfl

@[simp] theorem rvFinishBoundingBox_keypoints (st : RVState) :
    (rvFinishBoundingBox st).keypoints = st.keypoints := by
  unfold rvFinishBoundingBox; split <;> rfl

@[simp] theorem rvFinishBoundingBox_target (st : RVState) :
    (rvFinishBoundingBox st).target = st.target := by
  unfold rvFinishBoundingBox; split <;> rfl

@[simp] theorem rvFinishBoundingBox_frames (st : RVState) :
    (rvFinishBoundingBox st).frames = st.frames := by
  unfold rvFinishBoundingBox; split <;> rfl

@[simp] theorem rvFinishBoundingBox_blockVis (st : RVState) :
    (rvFinishBoundingBox st).blockVis = st.blockVis := by
  unfold rvFinishBoundingBox; split <;> rfl

@[simp] theorem rvFinishBoundingBox_playCrun (st : RVState) :
    (rvFinishBoundingBox st).playCrun = st.playCrun := by
  unfold rvFinishBoundingBox; split <;> rfl

/-- C1: transform rule per update.  Polyscope backend: after the geometry
pass of `Kissualizer.update`, the frame-cloud and keypoints clouds carry
the identity transform in ego view and `pose` in global view, and the
local-map cloud carries `inverse(pose)` in ego view and the identity in
global view.  Open3d backend: `_update_geometries` applies the same rule
directly to the point coordinates — when rendered, frame/keypoints points
are left in ego coordinates (identity) resp. lifted by `pose`, and the map
points are pulled back by `inverse(pose)` resp. left as-is (identity);
a hidden geometry is cleared instead. -/
theorem transform_rule_per_update :
    ∀ (source keypoints targetMapPoints : List Vec3) (pose : Mat4)
      (s : KissState) (ps : PsState) (st : RVState),
      (((kissUpdateGeometries source keypoints targetMapPoints pose s ps).2.clouds
          GeomName.currentFrame).map PsCloud.transform
        = some (if s.globalView then pose else 1))
      ∧ (((kissUpdateGeometries source keypoints targetMapPoints pose s ps).2.clouds
          GeomName.keypoints).map PsCloud.transform
        = some (if s.globalView then pose else 1))
      ∧ (((kissUpdateGeometries source keypoints targetMapPoints pose s ps).2.clouds
          GeomName.localMap).map PsCloud.transform
        = some (if s.globalView then (1 : Mat4) else npLinalgInv pose))
      ∧ ((rvUpdateGeometries source keypoints targetMapPoints pose st).source.points
        = if st.renderSource then
            (if st.globalView then source.map (applyTf pose) else source)
          else [])
      ∧ ((rvUpdateGeometries source keypoints targetMapPoints pose st).keypoints.points
        = if st.renderKeypoints then
            (if st.globalView then keypoints.map (applyTf pose) else keypoints)
          else [])
      ∧ ((rvUpdateGeometries source keypoints targetMapPoints pose st).target.points
        = if st.renderMap then
            (if st.globalView then targetMapPoints
             else targetMapPoints.map (applyTf (npLinalgInv pose)))
          else []) := by
  intro source keypoints targetMapPoints pose s ps st
  refine ⟨?_, ?_, ?_, ?_, ?_, ?_⟩
  · cases hc : ps.clouds GeomName.currentFrame <;>
      simp [kissUpdateGeometries, psSetEnabled, psSetTransform, psSetRadius,
        psRegisterPointCloud, psModifyCloud, hc]
  · cases hc : ps.clouds GeomName.keypoints <;>
      simp [kissUpdateGeometries, psSetEnabled, psSetTransform, psSetRadius,
        psRegisterPointCloud, psModifyCloud, hc]
  · cases hc : ps.clouds GeomName.localMap <;>
      simp [kissUpdateGeometries, psSetEnabled, psSetTransform, psSetRadius,
        psRegisterPointCloud, psModifyCloud, hc]
  · simp only [rvUpdateGeometries, rvFinishBoundingBox_source,
      rvAppendFrameMarker_source, rvUpdateTarget_source,
      rvUpdateKeypointsCloud_source]
    unfold rvUpdateSource
    cases hs : st.renderSource <;> cases hg : st.globalView <;>
      simp [o3Transform, o3PaintUniform, hs, hg]
  · simp only [rvUpdateGeometries, rvFinishBoundingBox_keypoints,
      rvAppendFrameMarker_keypoints, rvUpdateTarget_keypoints]
    unfold rvUpdateKeypointsCloud
    cases hs : st.renderKeypoints <;> cases hg : st.globalView <;>
      simp [o3Transform, o3PaintUniform, hs, hg]
  · simp only [rvUpdateGeometries, rvFinishBoundingBox_target,
      rvAppendFrameMarker_target]
    unfold rvUpdateTarget
    cases hs : st.renderMap <;> cases hg : st.globalView <;>
      simp [o3Transform, o3PaintUniform, hs, hg]

/-- C5: pressing the GLOBAL VIEW button (`_gui_callback`): the press that
switches to global view sets the frame and keypoint clouds' transforms to
`last_pose` and the map cloud's transform to the identity; the press that
switches back to ego view sets frame/keypoints to the identity and the map
to `inverse(last_pose)`; and every press sets the trajectory cloud's
visibility to the new value of `global_view`. -/
theorem reference_mode_switch_repositioning :
    ∀ (s : KissState) (ps : PsState), ∃ (s' : KissState) (ps' : PsState),
      guiCallback gvClickInput s ps = .ok (s', ps')
      ∧ s'.globalView = !s.globalView
      ∧ ((ps'.clouds GeomName.trajectory).map PsCloud.enabled
          = (ps.clouds GeomName.trajectory).map fun _ => !s.globalView)
      ∧ ((ps'.clouds GeomName.currentFrame).map PsCloud.transform
          = (ps.clouds GeomName.currentFrame).map fun _ =>
              if s.globalView then (1 : Mat4) else s.lastPose)
      ∧ ((ps'.clouds GeomName.keypoints).map PsCloud.transform
          = (ps.clouds GeomName.keypoints).map fun _ =>
              if s.globalView then (1 : Mat4) else s.lastPose)
      ∧ ((ps'.clouds GeomName.localMap).map PsCloud.transform
          = (ps.clouds GeomName.localMap).map fun _ =>
              if s.globalView then npLinalgInv s.lastPose else 1) := by
  intro s ps
  refine ⟨_, _, rfl, ?_, ?_, ?_, ?_, ?_⟩ <;>
    cases hgv : s.globalView <;>
      simp [gcPipeline, gcGlobalView, gcBackground, gcMapCheckbox,
        gcKeypointsCheckbox, gcFrameCheckbox, gcNextFrame, gcStartPause,
        gvClickInput, GuiInput.idle, psSetEnabled, psSetTransform,
        psModifyCloud, hgv, Function.comp_def]

/-! ### Characterization of the gui callback and the visualization loop -/

/-- The non-exiting part of `_gui_callback` never touches the trajectory or
`last_pose`, and changes `play_mode` / `block_execution` exactly as the
START/PAUSE and NEXT FRAME buttons dictate (NEXT FRAME being guarded by
the play mode that results from the START/PAUSE press of the same tick). -/
theorem gcPipeline_spec (inp : GuiInput) (p : KissState × PsState) :
    (gcPipeline inp p).1.trajectory = p.1.trajectory
    ∧ (gcPipeline inp p).1.lastPose = p.1.lastPose
    ∧ (gcPipeline inp p).1.playMode
        = (if inp.startPause then !p.1.playMode else p.1.playMode)
    ∧ (gcPipeline inp p).1.blockExecution
        = (if !(if inp.startPause then !p.1.playMode else p.1.playMode)
              && inp.nextFrame
           then !p.1.blockExecution else p.1.blockExecution) := by
  obtain ⟨sp, nf, cv, fc, kc, mc, bg, gvc, qc⟩ := inp
  obtain ⟨s, ps⟩ := p
  cases sp <;> cases nf <;> cases fc <;> cases kc <;> cases mc <;> cases gvc <;>
    cases bg <;>
    simp [gcPipeline, gcGlobalView, gcBackground, gcMapCheckbox,
      gcKeypointsCheckbox, gcFrameCheckbox, gcNextFrame, gcStartPause,
      apply_ite]

/-- A gui callback that returns (does not quit) returns the pipeline state. -/
theorem guiCallback_ok (inp : GuiInput) (s : KissState) (ps : PsState)
    (a : KissState × PsState) (h : guiCallback inp s ps = .ok a) :
    a = gcPipeline inp (s, ps) := by
  unfold guiCallback gcQuit at h
  cases hq : inp.quitClicked <;> simp [hq] at h
  exact h.symm

/-- A gui callback that quits exits the process with status 0 and a closed
window, whatever the state. -/
theorem guiCallback_quit (inp : GuiInput) (s : KissState) (ps : PsState)
    (hq : inp.quitClicked = true) :
    guiCallback inp s ps
      = .exited 0 (psUnshow (gcPipeline inp (s, ps)).2)
    ∧ (psUnshow (gcPipeline inp (s, ps)).2).shown = false := by
  unfold guiCallback gcQuit
  simp [hq, psUnshow]

/-- Ticks of the visualization loop never touch the trajectory or
`last_pose`. -/
theorem updateVisLoop_ok_state : ∀ (script : List GuiInput) (s : KissState)
    (ps : PsState) (n : ℕ) (r : (KissState × PsState) × List GuiInput × ℕ),
    updateVisLoop script s ps n = .ok r →
    r.1.1.trajectory = s.trajectory ∧ r.1.1.lastPose = s.lastPose := by
  intro script
  induction script with
  | nil =>
    intro s ps n r h
    rw [updateVisLoop] at h
    split at h
    · exact absurd h (by simp)
    · cases h
      exact ⟨rfl, rfl⟩
  | cons inp rest ih =>
    intro s ps n r h
    rw [updateVisLoop] at h
    split at h
    · split at h
      · exact absurd h (by simp)
      · next s' ps' heq =>
        have hst := guiCallback_ok inp s ps (s', ps') heq
        have hspec := gcPipeline_spec inp (s, ps)
        have h1 : s'.trajectory = s.trajectory := by
          rw [show s' = (gcPipeline inp (s, ps)).1 from congrArg Prod.fst hst]
          exact hspec.1
        have h2 : s'.lastPose = s.lastPose := by
          rw [show s' = (gcPipeline inp (s, ps)).1 from congrArg Prod.fst hst]
          exact hspec.2.1
        split at h
        · cases h
          exact ⟨h1, h2⟩
        · have := ih s' ps' (n + 1) r h
          exact ⟨this.1.trans h1, this.2.trans h2⟩
    · cases h
      exact ⟨rfl, rfl⟩

/-- `_update_visualizer` never touches the trajectory or `last_pose`. -/
theorem updateVisualizer_ok_state (script : List GuiInput) (s : KissState)
    (ps : PsState) (r : (KissState × PsState) × List GuiInput × ℕ)
    (h : updateVisualizer script s ps = .ok r) :
    r.1.1.trajectory = s.trajectory ∧ r.1.1.lastPose = s.lastPose := by
  unfold updateVisualizer at h
  split at h
  · next s' ps' rest polls heq =>
    have hl := updateVisLoop_ok_state script s ps 0 ((s', ps'), rest, polls) heq
    cases h
    exact ⟨hl.1, hl.2⟩
  · exact absurd h (by simp)
  · exact absurd h (by simp)

/-- A returning `Kissualizer.update` call appends exactly the pose's
translation to the trajectory and caches the pose. -/
theorem kissUpdate_ok_state (source keypoints targetMapPoints : List Vec3)
    (pose : Mat4) (script : List GuiInput) (s : KissState) (ps : PsState)
    (r : (KissState × PsState) × List GuiInput × ℕ)
    (h : kissUpdate source keypoints targetMapPoints pose script s ps = .ok r) :
    r.1.1.trajectory = s.trajectory ++ [translationOf pose]
    ∧ r.1.1.lastPose = pose := by
  unfold kissUpdate at h
  have := updateVisualizer_ok_state script
    (kissUpdateGeometries source keypoints targetMapPoints pose s ps).1
    (kissUpdateGeometries source keypoints targetMapPoints pose s ps).2 r h
  exact ⟨this.1, this.2⟩

/-- If the blocked loop of `_update_visualizer` returns, a Step (NEXT
FRAME) or Play (START/PAUSE) press occurred in the consumed script —
unless the loop was not blocked to begin with. -/
theorem updateVisLoop_ok_signal : ∀ (script : List GuiInput) (s : KissState)
    (ps : PsState) (n : ℕ) (r : (KissState × PsState) × List GuiInput × ℕ),
    s.playMode = false → updateVisLoop script s ps n = .ok r →
    s.blockExecution = false
    ∨ ∃ inp ∈ script, inp.startPause = true ∨ inp.nextFrame = true := by
  intro script
  induction script with
  | nil =>
    intro s ps n r hp h
    rw [updateVisLoop] at h
    split at h
    · exact absurd h (by simp)
    · next hb => exact Or.inl (by simpa using hb)
  | cons inp rest ih =>
    intro s ps n r hp h
    rw [updateVisLoop] at h
    split at h
    · next hb =>
      split at h
      · exact absurd h (by simp)
      · next s' ps' heq =>
        have hst : s' = (gcPipeline inp (s, ps)).1 :=
          congrArg Prod.fst (guiCallback_ok inp s ps (s', ps') heq)
        have hspec := gcPipeline_spec inp (s, ps)
        have hplay : s'.playMode
            = if inp.startPause then !s.playMode else s.playMode := by
          rw [hst]; exact hspec.2.2.1
        have hblock : s'.blockExecution
            = if !(if inp.startPause then !s.playMode else s.playMode)
                 && inp.nextFrame
              then !s.blockExecution else s.blockExecution := by
          rw [hst]; exact hspec.2.2.2
        split at h
        · next hp' =>
          refine Or.inr ⟨inp, by simp, Or.inl ?_⟩
          cases hsp : inp.startPause
          · rw [hplay, hsp, if_neg (by simp), hp] at hp'
            exact absurd hp' (by simp)
          · rfl
        · next hp' =>
          have hp'' : s'.playMode = false := by simpa using hp'
          rcases ih s' ps' (n + 1) r hp'' h with hb' | ⟨inp', hmem, hsig⟩
          · refine Or.inr ⟨inp, by simp, Or.inr ?_⟩
            cases hnf : inp.nextFrame
            · rw [hblock, hnf, Bool.and_false, if_neg (by simp), hb] at hb'
              exact absurd hb' (by simp)
            · rfl
          · exact Or.inr ⟨inp', by simp [hmem], hsig⟩
    · next hb => exact Or.inl (by simpa using hb)

/-! ### The open3d key callbacks and poll loop -/

@[simp] theorem rvTrajectoryHandle_frames (st : RVState) :
    (rvTrajectoryHandle st).frames = st.frames := by
  unfold rvTrajectoryHandle; split <;> rfl

@[simp] theorem rvTrajectoryHandle_playCrun (st : RVState) :
    (rvTrajectoryHandle st).playCrun = st.playCrun := by
  unfold rvTrajectoryHandle; split <;> rfl

@[simp] theorem rvTrajectoryHandle_blockVis (st : RVState) :
    (rvTrajectoryHandle st).blockVis = st.blockVis := by
  unfold rvTrajectoryHandle; split <;> rfl

/-- No key callback other than [Q] touches the marker history. -/
theorem rvKeyCallback_ok_frames (key : RVKey) (st st' : RVState)
    (h : rvKeyCallback key st = .ok st') : st'.frames = st.frames := by
  cases key <;> simp [rvKeyCallback] at h <;> subst h <;>
    simp [rvStartStop, rvNextFrame, rvToggleView, rvCenterViewpoint,
      rvToggleSource, rvToggleKeypoints, rvToggleMap, rvToggleTrajectory,
      rvSetBlackBackground, rvSetWhiteBackground, apply_ite]

/-- Only [SPACE] changes `play_crun`. -/
theorem rvKeyCallback_ok_playCrun (key : RVKey) (st st' : RVState)
    (h : rvKeyCallback key st = .ok st') :
    st'.playCrun = st.playCrun ∨ key = RVKey.space := by
  cases key <;> simp [rvKeyCallback] at h <;> subst h <;>
    simp [rvStartStop, rvNextFrame, rvToggleView,
      rvCenterViewpoint, rvToggleSource, rvToggleKeypoints, rvToggleMap,
      rvToggleTrajectory, rvSetBlackBackground, rvSetWhiteBackground,
      apply_ite]

/-- Only [N] changes `block_vis`. -/
theorem rvKeyCallback_ok_blockVis (key : RVKey) (st st' : RVState)
    (h : rvKeyCallback key st = .ok st') :
    st'.blockVis = st.blockVis ∨ key = RVKey.n := by
  cases key <;> simp [rvKeyCallback] at h <;> subst h <;>
    simp [rvStartStop, rvNextFrame, rvToggleView,
      rvCenterViewpoint, rvToggleSource, rvToggleKeypoints, rvToggleMap,
      rvToggleTrajectory, rvSetBlackBackground, rvSetWhiteBackground,
      apply_ite]

/-- A poll that returns leaves the marker history unchanged. -/
theorem rvPollEvents_ok_frames : ∀ (keys : List RVKey) (st st' : RVState),
    rvPollEvents keys st = .ok st' → st'.frames = st.frames := by
  intro keys
  induction keys with
  | nil =>
    intro st st' h
    rw [rvPollEvents] at h
    cases h
    rfl
  | cons key keys ih =>
    intro st st' h
    rw [rvPollEvents] at h
    split at h
    · next st1 heq =>
      exact (ih st1 st' h).trans (rvKeyCallback_ok_frames key st st1 heq)
    · exact absurd h (by simp)

/-- A poll that returns with `play_crun` changed saw a [SPACE] press. -/
theorem rvPollEvents_ok_playCrun : ∀ (keys : List RVKey) (st st' : RVState),
    rvPollEvents keys st = .ok st' →
    st'.playCrun = st.playCrun ∨ RVKey.space ∈ keys := by
  intro keys
  induction keys with
  | nil =>
    intro st st' h
    rw [rvPollEvents] at h
    cases h
    exact Or.inl rfl
  | cons key keys ih =>
    intro st st' h
    rw [rvPollEvents] at h
    split at h
    · next st1 heq =>
      rcases ih st1 st' h with h1 | h1
      · rcases rvKeyCallback_ok_playCrun key st st1 heq with h2 | h2
        · exact Or.inl (h1.trans h2)
        · exact Or.inr (by simp [h2])
      · exact Or.inr (by simp [h1])
    · exact absurd h (by simp)

/-- A poll that returns with `block_vis` changed saw an [N] press. -/
theorem rvPollEvents_ok_blockVis : ∀ (keys : List RVKey) (st st' : RVState),
    rvPollEvents keys st = .ok st' →
    st'.blockVis = st.blockVis ∨ RVKey.n ∈ keys := by
  intro keys
  induction keys with
  | nil =>
    intro st st' h
    rw [rvPollEvents] at h
    cases h
    exact Or.inl rfl
  | cons key keys ih =>
    intro st st' h
    rw [rvPollEvents] at h
    split at h
    · next st1 heq =>
      rcases ih st1 st' h with h1 | h1
      · rcases rvKeyCallback_ok_blockVis key st st1 heq with h2 | h2
        · exact Or.inl (h1.trans h2)
        · exact Or.inr (by simp [h2])
      · exact Or.inr (by simp [h1])
    · exact absurd h (by simp)

/-- The open3d poll loop leaves the marker history unchanged. -/
theorem rvUpdateLoop_ok_frames : ∀ (script : List (List RVKey)) (st : RVState)
    (n : ℕ) (r : RVState × List (List RVKey) × ℕ),
    rvUpdateLoop script st n = .ok r → r.1.frames = st.frames := by
  intro script
  induction script with
  | nil =>
    intro st n r h
    rw [rvUpdateLoop] at h
    split at h
    · exact absurd h (by simp)
    · cases h; rfl
  | cons keys rest ih =>
    intro st n r h
    rw [rvUpdateLoop] at h
    split at h
    · split at h
      · exact absurd h (by simp)
      · next st1 heq =>
        split at h
        · cases h
          exact rvPollEvents_ok_frames keys st st1 heq
        · exact (ih st1 (n + 1) r h).trans
            (rvPollEvents_ok_frames keys st st1 heq)
    · cases h; rfl

/-- If the blocked open3d loop returns, a [SPACE] or [N] press occurred in
the consumed script — unless the loop was not blocked to begin with. -/
theorem rvUpdateLoop_ok_signal : ∀ (script : List (List RVKey)) (st : RVState)
    (n : ℕ) (r : RVState × List (List RVKey) × ℕ),
    st.playCrun = false → rvUpdateLoop script st n = .ok r →
    st.blockVis = false
    ∨ ∃ keys ∈ script, RVKey.space ∈ keys ∨ RVKey.n ∈ keys := by
  intro script
  induction script with
  | nil =>
    intro st n r hp h
    rw [rvUpdateLoop] at h
    split at h
    · exact absurd h (by simp)
    · next hb => exact Or.inl (by simpa using hb)
  | cons keys rest ih =>
    intro st n r hp h
    rw [rvUpdateLoop] at h
    split at h
    · next hb =>
      split at h
      · exact absurd h (by simp)
      · next st1 heq =>
        split at h
        · next hp' =>
          rcases rvPollEvents_ok_playCrun keys st st1 heq with h1 | h1
          · rw [hp', hp] at h1
            exact absurd h1 (by simp)
          · exact Or.inr ⟨keys, by simp, Or.inl h1⟩
        · next hp' =>
          have hp'' : st1.playCrun = false := by simpa using hp'
          rcases ih st1 (n + 1) r hp'' h with hb' | ⟨keys', hmem, hsig⟩
          · rcases rvPollEvents_ok_blockVis keys st st1 heq with h1 | h1
            · rw [hb', hb] at h1
              exact absurd h1 (by simp)
            · exact Or.inr ⟨keys, by simp, Or.inr h1⟩
          · exact Or.inr ⟨keys', by simp [hmem], hsig⟩
    · next hb => exact Or.inl (by simpa using hb)

/-- A returning `RegistrationVisualizer.update` call appends exactly one
pose marker (the sphere transformed by the pose) to the marker history. -/
theorem rvUpdate_ok_frames (source keypoints targetMapPoints : List Vec3)
    (pose : Mat4) (script : List (List RVKey)) (st : RVState)
    (r : RVState × List (List RVKey) × ℕ)
    (h : rvUpdate source keypoints targetMapPoints pose script st = .ok r) :
    r.1.frames = st.frames ++ [o3MeshTransform pose o3CreateSphere] := by
  unfold rvUpdate at h
  dsimp only at h
  split at h
  · next st2 rest polls heq =>
    have h1 := rvUpdateLoop_ok_frames script _ 0 (st2, rest, polls) heq
    cases h
    calc ({ st2 with blockVis := !st2.blockVis } : RVState).frames
        = st2.frames := rfl
      _ = (rvUpdateGeometries source keypoints targetMapPoints pose st).frames :=
          h1
      _ = st.frames ++ [o3MeshTransform pose o3CreateSphere] := by
          simp [rvUpdateGeometries]
  · exact absurd h (by simp)
  · exact absurd h (by simp)

/-- Trajectory bookkeeping of a whole polyscope session. -/
theorem kissRun_ok_traj : ∀ (frames : List KissFrame) (s : KissState)
    (ps : PsState), (kissRun frames s ps).isOk = true →
    kissRunTraj? (kissRun frames s ps)
      = some (s.trajectory ++ frames.map fun f => translationOf f.pose) := by
  intro frames
  induction frames with
  | nil =>
    intro s ps h
    simp [kissRun, kissRunTraj?]
  | cons f fs ih =>
    intro s ps h
    cases hu : kissUpdate f.source f.keypoints f.targetMapPoints f.pose
        f.script s ps with
    | ok r =>
      obtain ⟨⟨s', ps'⟩, rest, polls⟩ := r
      have hst := kissUpdate_ok_state f.source f.keypoints f.targetMapPoints
        f.pose f.script s ps ((s', ps'), rest, polls) hu
      simp only [kissRun, hu] at h ⊢
      rw [ih s' ps' h, hst.1]
      simp
    | exited c psF =>
      simp only [kissRun, hu] at h
      exact absurd h (by simp [RunRes.isOk])
    | stuck =>
      simp only [kissRun, hu] at h
      exact absurd h (by simp [RunRes.isOk])

/-- Marker bookkeeping of a whole open3d session. -/
theorem rvRun_ok_frames : ∀ (frames : List RVFrame) (st : RVState),
    (rvRun frames st).isOk = true →
    rvRunFrames? (rvRun frames st)
      = some (st.frames ++ frames.map fun f => f.pose) := by
  intro frames
  induction frames with
  | nil =>
    intro st h
    simp [rvRun, rvRunFrames?]
  | cons f fs ih =>
    intro st h
    cases hu : rvUpdate f.source f.keypoints f.targetMapPoints f.pose
        f.script st with
    | ok r =>
      obtain ⟨st', rest, polls⟩ := r
      have hfr := rvUpdate_ok_frames f.source f.keypoints f.targetMapPoints
        f.pose f.script st (st', rest, polls) hu
      simp only [rvRun, hu] at h ⊢
      rw [ih st' h]
      have hfr' : st'.frames
          = st.frames ++ [o3MeshTransform f.pose o3CreateSphere] := hfr
      simp [hfr', o3MeshTransform, o3CreateSphere]
    | exited c fin =>
      simp only [rvRun, hu] at h
      exact absurd h (by simp [RunRes.isOk])
    | stuck =>
      simp only [rvRun, hu] at h
      exact absurd h (by simp [RunRes.isOk])

/-- C2: trajectory monotonicity.  Polyscope backend: a session of N
returning `update` calls from any starting state appends exactly the N
pose translations (`pose[:3,3]`), in call order, whatever the view mode
and visibility toggles do meanwhile (the statement quantifies over every
state and every interaction script) — append-only, never truncated.
Open3d backend: the marker history `frames` likewise gains exactly one
pose marker per call, in call order. -/
theorem trajectory_monotonicity :
    (∀ (frames : List KissFrame) (s : KissState) (ps : PsState),
      (kissRun frames s ps).isOk = true →
      kissRunTraj? (kissRun frames s ps)
        = some (s.trajectory ++ frames.map fun f => translationOf f.pose))
    ∧ (∀ (frames : List RVFrame) (st : RVState),
      (rvRun frames st).isOk = true →
      rvRunFrames? (rvRun frames st)
        = some (st.frames ++ frames.map fun f => f.pose)) :=
  ⟨kissRun_ok_traj, rvRun_ok_frames⟩

/-- Witness for C2 on a concrete two-frame session of each backend. -/
theorem trajectory_monotonicity_witness :
    kissRunTraj? (kissRun [wKissFrame, wKissFrame] KissState.init psInitialized)
      = some (KissState.init.trajectory
          ++ [wKissFrame, wKissFrame].map fun f => translationOf f.pose)
    ∧ rvRunFrames? (rvRun [wRvFrame, wRvFrame] rvInitState)
      = some (rvInitState.frames ++ [wRvFrame, wRvFrame].map fun f => f.pose) :=
  ⟨trajectory_monotonicity.1 [wKissFrame, wKissFrame] KissState.init
      psInitialized (by rfl),
   trajectory_monotonicity.2 [wRvFrame, wRvFrame] rvInitState (by rfl)⟩

/-- C3 (amended): blocking/play invariant.  (1) When PlayMode is false and
the loop's block flag is set (as it is at every reachable update entry
with PlayMode false), `_update_visualizer` does not return until a Step
(NEXT FRAME) or Play (START/PAUSE) signal has been observed.  (2,3) When
PlayMode is true the call never waits for a discrete signal, but it does
NOT poll exactly once per call: the block flag alternates, so the call
returns immediately with ZERO polls when the flag is clear, and with
exactly one poll when the flag is set (and the poll leaves PlayMode on).
(4,5) The open3d `update` behaves the same way with [SPACE]/[N] signals
and `play_crun`/`block_vis`. -/
theorem blocking_play_invariant_amended :
    (∀ (script : List GuiInput) (s : KissState) (ps : PsState)
       (r : (KissState × PsState) × List GuiInput × ℕ),
      s.playMode = false → s.blockExecution = true →
      updateVisualizer script s ps = .ok r →
      ∃ inp ∈ script, inp.startPause = true ∨ inp.nextFrame = true)
    ∧ (∀ (script : List GuiInput) (s : KissState) (ps : PsState),
      s.playMode = true → s.blockExecution = false →
      updateVisualizer script s ps
        = .ok (({ s with blockExecution := true }, ps), script, 0))
    ∧ (∀ (inp : GuiInput) (script : List GuiInput) (s s' : KissState)
       (ps ps' : PsState),
      s.blockExecution = true → guiCallback inp s ps = .ok (s', ps') →
      s'.playMode = true →
      updateVisualizer (inp :: script) s ps
        = .ok (({ s' with blockExecution := !s'.blockExecution }, ps'),
            script, 1))
    ∧ (∀ (source keypoints targetMapPoints : List Vec3) (pose : Mat4)
       (script : List (List RVKey)) (st : RVState)
       (r : RVState × List (List RVKey) × ℕ),
      st.playCrun = false → st.blockVis = true →
      rvUpdate source keypoints targetMapPoints pose script st = .ok r →
      ∃ keys ∈ script, RVKey.space ∈ keys ∨ RVKey.n ∈ keys)
    ∧ (∀ (source keypoints targetMapPoints : List Vec3) (pose : Mat4)
       (script : List (List RVKey)) (st : RVState),
      st.playCrun = true → st.blockVis = false →
      rvUpdate source keypoints targetMapPoints pose script st
        = .ok ({ rvUpdateGeometries source keypoints targetMapPoints pose st
                  with blockVis := true }, script, 0)) := by
  refine ⟨?_, ?_, ?_, ?_, ?_⟩
  · intro script s ps r hp hb h
    unfold updateVisualizer at h
    split at h
    · next s' ps' rest polls heq =>
      rcases updateVisLoop_ok_signal script s ps 0 ((s', ps'), rest, polls)
          hp heq with hb' | hsig
      · rw [hb] at hb'
        exact absurd hb' (by simp)
      · exact hsig
    · exact absurd h (by simp)
    · exact absurd h (by simp)
  · intro script s ps hp hb
    unfold updateVisualizer
    rw [updateVisLoop.eq_def]
    simp [hb]
  · intro inp script s s' ps ps' hb heq hp'
    unfold updateVisualizer
    rw [updateVisLoop.eq_def]
    simp [hb, heq, hp']
  · intro source keypoints targetMapPoints pose script st r hp hb h
    unfold rvUpdate at h
    dsimp only at h
    split at h
    · next st2 rest polls heq =>
      have hp1 : (rvUpdateGeometries source keypoints targetMapPoints pose
          st).playCrun = false := by simp [rvUpdateGeometries, hp]
      have hb1 : (rvUpdateGeometries source keypoints targetMapPoints pose
          st).blockVis = true := by simp [rvUpdateGeometries, hb]
      rcases rvUpdateLoop_ok_signal script _ 0 (st2, rest, polls) hp1 heq with
        hb' | hsig
      · rw [hb1] at hb'
        exact absurd hb' (by simp)
      · exact hsig
    · exact absurd h (by simp)
    · exact absurd h (by simp)
  · intro source keypoints targetMapPoints pose script st hp hb
    have hb1 : (rvUpdateGeometries source keypoints targetMapPoints pose
        st).blockVis = false := by simp [rvUpdateGeometries, hb]
    unfold rvUpdate
    dsimp only
    rw [rvUpdateLoop.eq_def]
    simp [hb1]

/-- Witness for C3's amended theorem, at concrete states and scripts of
both backends. -/
theorem blocking_play_invariant_amended_witness :
    (∃ inp ∈ [stepClickInput], inp.startPause = true ∨ inp.nextFrame = true)
    ∧ updateVisualizer []
        { KissState.init with playMode := true, blockExecution := false }
        psInitialized
      = .ok ((({ KissState.init with playMode := true, blockExecution := true }
            : KissState), psInitialized), [], 0)
    ∧ updateVisualizer [startClickInput] KissState.init psInitialized
      = .ok ((({ KissState.init with playMode := true, blockExecution := false } : KissState), psInitialized), [], 1)
    ∧ (∃ keys ∈ [[RVKey.n]], RVKey.space ∈ keys ∨ RVKey.n ∈ keys)
    ∧ rvUpdate [] [] [] 1 []
        { rvInitState with playCrun := true, blockVis := false }
      = .ok ({ rvUpdateGeometries [] [] [] 1
          { rvInitState with playCrun := true, blockVis := false }
            with blockVis := true }, [], 0) := by
  refine ⟨?_, ?_, ?_, ?_, ?_⟩
  · exact blocking_play_invariant_amended.1 [stepClickInput] KissState.init
      psInitialized ((KissState.init, psInitialized), [], 1) rfl rfl rfl
  · exact blocking_play_invariant_amended.2.1 []
      { KissState.init with playMode := true, blockExecution := false }
      psInitialized rfl rfl
  · have := blocking_play_invariant_amended.2.2.1 startClickInput []
      KissState.init { KissState.init with playMode := true }
      psInitialized psInitialized rfl rfl rfl
    exact this
  · exact blocking_play_invariant_amended.2.2.2.1 [] [] [] 1 [[RVKey.n]]
      rvInitState (rvUpdateGeometries [] [] [] 1 rvInitState, [], 1)
      rfl rfl rfl
  · exact blocking_play_invariant_amended.2.2.2.2 [] [] [] 1 []
      { rvInitState with playCrun := true, blockVis := false } rfl rfl

/-- C3 counterexample: the claim "when PlayMode is true, every call to
update polls the renderer's event loop exactly once" fails on a concrete
reachable session.  From the initial state, the first update's single
poll sees a START/PAUSE press (PlayMode becomes true and the call returns
after that 1 poll); the second update is entered with PlayMode true yet
performs 0 polls — not exactly one — because `_update_visualizer` flipped
`block_execution` to false on the way out of the first call.  The log
records (play_mode at entry, block_execution at entry, polls performed)
per call. -/
theorem play_mode_single_poll_counterexample :
    kissRunLog [cxFrameA, cxFrameB] KissState.init psInitialized
      = some [(false, true, 1), (true, false, 0)] := by
  rfl

/-- C6: quit terminality.  A QUIT press makes the gui callback close the
window (`unshow`) and terminate the process with `os._exit(0)` — status 0 —
whatever the current state; once an update call exits this way, the
session result is that exit, independent of any frames that would have
followed (no further geometry updates), and control never returns as a
normal `.ok` to the caller.  The open3d [Q]/[ESC] callback likewise
destroys the window and exits with status 0. -/
theorem quit_terminality :
    (∀ (inp : GuiInput) (s : KissState) (ps : PsState),
      inp.quitClicked = true →
      ∃ psF, guiCallback inp s ps = .exited 0 psF ∧ psF.shown = false)
    ∧ (∀ (f : KissFrame) (fs fs2 : List KissFrame) (s : KissState)
       (ps : PsState) (c : ℕ),
      (kissUpdate f.source f.keypoints f.targetMapPoints f.pose f.script
          s ps).exitCode? = some c →
      kissRun (f :: fs) s ps = kissRun (f :: fs2) s ps
      ∧ (kissRun (f :: fs) s ps).exitCode? = some c)
    ∧ (∀ st : RVState,
      rvKeyCallback RVKey.q st = .exited 0 (rvDestroyWindow st)
      ∧ (rvDestroyWindow st).windowAlive = false) := by
  refine ⟨?_, ?_, fun st => ⟨rfl, rfl⟩⟩
  · intro inp s ps hq
    exact ⟨psUnshow (gcPipeline inp (s, ps)).2, (guiCallback_quit inp s ps hq).1,
      (guiCallback_quit inp s ps hq).2⟩
  · intro f fs fs2 s ps c h
    cases hu : kissUpdate f.source f.keypoints f.targetMapPoints f.pose
        f.script s ps with
    | ok r =>
      rw [hu] at h
      exact absurd h (by simp [RunRes.exitCode?])
    | stuck =>
      rw [hu] at h
      exact absurd h (by simp [RunRes.exitCode?])
    | exited c' psF =>
      rw [hu] at h
      simp [RunRes.exitCode?] at h
      subst h
      exact ⟨by simp only [kissRun, hu], by simp only [kissRun, hu]; rfl⟩

/-- Witness for C6 at a concrete quitting session. -/
theorem quit_terminality_witness :
    (∃ psF, guiCallback quitClickInput KissState.init psInitialized
        = .exited 0 psF ∧ psF.shown = false)
    ∧ (kissRun [quitKissFrame] KissState.init psInitialized
        = kissRun [quitKissFrame, wKissFrame] KissState.init psInitialized
      ∧ (kissRun [quitKissFrame] KissState.init psInitialized).exitCode?
        = some 0)
    ∧ (rvKeyCallback RVKey.q rvInitState
        = .exited 0 (rvDestroyWindow rvInitState)
      ∧ (rvDestroyWindow rvInitState).windowAlive = false) :=
  ⟨quit_terminality.1 quitClickInput KissState.init psInitialized rfl,
   quit_terminality.2.1 quitKissFrame [] [wKissFrame] KissState.init
     psInitialized 0 (by rfl),
   quit_terminality.2.2 rvInitState⟩
